import Mathlib

/-!
Verification of the EBSS-simulator scenario projection engine
(src/streamlit_app.py) against its natural-language specification.

The numeric pipeline of `main` (lines 369-408) and the two helpers
`calculate_npv` / `calculate_irr` (lines 9-14) are embedded over ℚ:
numpy arrays become lists, elementwise array arithmetic becomes
`List.map` / `List.zipWith`, and `cumsum` is an explicit running sum.
-/

namespace EBSS

/-- Usable capacity after removing the reserved slice,
from src/streamlit_app.py line 369:
usable_capacity = capacity * (1 - reserved_capacity_pct / 100). -/
def usable_capacity (capacity reserved_capacity_pct : ℚ) : ℚ :=
  capacity * (1 - reserved_capacity_pct / 100)

/-- Effective discharge power, from src/streamlit_app.py line 372:
effective_power = min(power, usable_capacity * (efficiency / 100)) * (availability / 100). -/
def effective_power (capacity power efficiency reserved_capacity_pct availability : ℚ) : ℚ :=
  min power (usable_capacity capacity reserved_capacity_pct * (efficiency / 100))
    * (availability / 100)

/-- Total investment, from src/streamlit_app.py line 374:
total_investment = capacity * battery_cost. -/
def total_investment (capacity battery_cost : ℚ) : ℚ :=
  capacity * battery_cost

/-- Compounding price series, from src/streamlit_app.py lines 376 and 385-387:
years = np.arange(1, operational_life + 1) and
prices = initial * ((1 + growth / 100) ** (years - 1)),
so the entry for year i (1-indexed) is initial * (1 + growth / 100) ^ (i - 1). -/
def price_trajectory (initial growth : ℚ) (operational_life : ℕ) : List ℚ :=
  (List.range operational_life).map (fun k => initial * (1 + growth / 100) ^ k)

/-- The six per-scenario market parameters stored at
src/streamlit_app.py lines 354-361. -/
structure ScenarioParams where
  initial_electricity_cost : ℚ
  electricity_price_growth : ℚ
  initial_afrr_capacity_price : ℚ
  afrr_capacity_price_growth : ℚ
  initial_afrr_activation_price : ℚ
  afrr_activation_price_growth : ℚ

/-- Electricity price series, src/streamlit_app.py line 385. -/
def electricity_prices (p : ScenarioParams) (operational_life : ℕ) : List ℚ :=
  price_trajectory p.initial_electricity_cost p.electricity_price_growth operational_life

/-- aFRR capacity price series, src/streamlit_app.py line 386. -/
def afrr_capacity_prices (p : ScenarioParams) (operational_life : ℕ) : List ℚ :=
  price_trajectory p.initial_afrr_capacity_price p.afrr_capacity_price_growth operational_life

/-- aFRR activation price series, src/streamlit_app.py line 387. -/
def afrr_activation_prices (p : ScenarioParams) (operational_life : ℕ) : List ℚ :=
  price_trajectory p.initial_afrr_activation_price p.afrr_activation_price_growth
    operational_life

/-- Annual capacity revenues, src/streamlit_app.py line 390:
annual_capacity_revenues = effective_power * afrr_capacity_prices * 24 * 365
(elementwise, effective_power abbreviated ep). -/
def annual_capacity_revenues (ep : ℚ) (p : ScenarioParams) (operational_life : ℕ) : List ℚ :=
  (afrr_capacity_prices p operational_life).map (fun price => ep * price * 24 * 365)

/-- Annual energy activated (a scalar), src/streamlit_app.py line 391:
annual_energy_activated = effective_power * (activation_rate / 100) * 24 * 365. -/
def annual_energy_activated (ep activation_rate : ℚ) : ℚ :=
  ep * (activation_rate / 100) * 24 * 365

/-- Annual activation revenues, src/streamlit_app.py line 392:
annual_activation_revenues = annual_energy_activated * afrr_activation_prices. -/
def annual_activation_revenues (ep activation_rate : ℚ) (p : ScenarioParams)
    (operational_life : ℕ) : List ℚ :=
  (afrr_activation_prices p operational_life).map
    (fun price => annual_energy_activated ep activation_rate * price)

/-- Annual revenues, src/streamlit_app.py line 393:
annual_revenues = annual_capacity_revenues + annual_activation_revenues (elementwise). -/
def annual_revenues (ep activation_rate : ℚ) (p : ScenarioParams)
    (operational_life : ℕ) : List ℚ :=
  List.zipWith (fun a b => a + b) (annual_capacity_revenues ep p operational_life)
    (annual_activation_revenues ep activation_rate p operational_life)

/-- Annual energy charged (a scalar), src/streamlit_app.py line 394:
annual_energy_charged = annual_energy_activated / (efficiency / 100). -/
def annual_energy_charged (ep activation_rate efficiency : ℚ) : ℚ :=
  annual_energy_activated ep activation_rate / (efficiency / 100)

/-- Annual charging costs, src/streamlit_app.py line 395:
annual_charging_costs = annual_energy_charged * electricity_prices. -/
def annual_charging_costs (ep activation_rate efficiency : ℚ) (p : ScenarioParams)
    (operational_life : ℕ) : List ℚ :=
  (electricity_prices p operational_life).map
    (fun price => annual_energy_charged ep activation_rate efficiency * price)

/-- Net annual revenues, src/streamlit_app.py line 396:
net_annual_revenues = annual_revenues - annual_charging_costs (elementwise). -/
def net_annual_revenues (ep activation_rate efficiency : ℚ) (p : ScenarioParams)
    (operational_life : ℕ) : List ℚ :=
  List.zipWith (fun a b => a - b) (annual_revenues ep activation_rate p operational_life)
    (annual_charging_costs ep activation_rate efficiency p operational_life)

/-- Running sum with accumulator, the semantics of numpy cumsum. -/
def cumsum_aux (acc : ℚ) : List ℚ → List ℚ
  | [] => []
  | x :: xs => (acc + x) :: cumsum_aux (acc + x) xs

/-- numpy cumsum: element j holds the sum of the first j+1 entries. -/
def cumsum (xs : List ℚ) : List ℚ := cumsum_aux 0 xs

/-- Cumulative cash flow, src/streamlit_app.py line 398:
cumulative_cash_flow = net_annual_revenues.cumsum() - total_investment
(the scalar total investment is subtracted elementwise). -/
def cumulative_cash_flow (net : List ℚ) (ti : ℚ) : List ℚ :=
  (cumsum net).map (fun c => c - ti)

/-- First (year, cash) pair with cash >= 0, the semantics of the generator in
src/streamlit_app.py line 399. -/
def first_payback : List (ℕ × ℚ) → Option ℕ
  | [] => none
  | yc :: rest => if 0 ≤ yc.2 then some yc.1 else first_payback rest

/-- years = np.arange(1, operational_life + 1), src/streamlit_app.py line 376. -/
def years_list (operational_life : ℕ) : List ℕ :=
  (List.range operational_life).map (fun k => k + 1)

/-- Payback period, src/streamlit_app.py line 399:
payback_period = next((year for year, cash in zip(years, cumulative_cash_flow)
if cash >= 0), None). -/
def payback_period (operational_life : ℕ) (ccf : List ℚ) : Option ℕ :=
  first_payback ((years_list operational_life).zip ccf)

/-- numpy np.npv semantics: (values / (1 + rate) ** np.arange(0, len(values))).sum(),
i.e. the sum of values[t] / (1 + rate) ^ t, t starting at 0. -/
def np_npv (rate : ℚ) (values : List ℚ) : ℚ :=
  (values.enum.map (fun tv => tv.2 / (1 + rate) ^ tv.1)).sum

/-- NPV helper, src/streamlit_app.py lines 9-10: calculate_npv(rate, cash_flows)
returns np.npv(rate, cash_flows). -/
def calculate_npv (rate : ℚ) (cash_flows : List ℚ) : ℚ :=
  np_npv rate cash_flows

/-- Cash-flow vector handed to the metrics helpers, src/streamlit_app.py line 403:
cash_flows = [-total_investment] + net_annual_revenues.tolist(). -/
def cash_flows_list (ti : ℚ) (net : List ℚ) : List ℚ :=
  (-ti) :: net

/-- A Python float value as far as the IRR reporting path observes it: either a
numeric value or the IEEE nan that np.irr yields when its root search fails. -/
inductive PyFloat where
  | num (q : ℚ)
  | nan
deriving DecidableEq

/-- Python float multiplication: nan is absorbing. -/
def py_mul : PyFloat → PyFloat → PyFloat
  | PyFloat.num a, PyFloat.num b => PyFloat.num (a * b)
  | _, _ => PyFloat.nan

/-- The value np.irr returns when its solver finds no admissible root, e.g. when
every cash flow shares one sign: numpy's irr returns the float nan then (it
never returns Python None). src/streamlit_app.py lines 13-14 pass this value
through unchanged. -/
def np_irr_failure_value : PyFloat := PyFloat.nan

/-- The shape of the IRR cell rendered at src/streamlit_app.py line 465:
either the fixed fallback text or a formatted percentage of the stored value. -/
inductive IrrText where
  | NA
  | pct (v : PyFloat)
deriving DecidableEq

/-- IRR display logic, src/streamlit_app.py line 465:
irr_text = f-string of irr * 100 if irr is not None else "N/A".
The fallback branch is taken exactly when the stored value is Python None. -/
def irr_text (irr : Option PyFloat) : IrrText :=
  match irr with
  | some v => IrrText.pct (py_mul v (PyFloat.num 100))
  | none => IrrText.NA

/-- The scalar inputs read by the validation code, src/streamlit_app.py
lines 260-293. -/
structure Inputs where
  capacity : ℚ
  power : ℚ
  efficiency : ℚ
  reserved_capacity_pct : ℚ
  availability : ℚ
  activation_rate : ℚ
  operational_life : ℤ

/-- Input validation, src/streamlit_app.py lines 266-293: true exactly when one
of the st.error/st.stop branches fires before any computation. The checks are:
capacity <= 0, power <= 0, efficiency <= 0 or > 100, availability < 0 or > 100,
activation_rate < 0 or > 100. No branch examines operational_life. -/
def rejects (i : Inputs) : Bool :=
  decide (i.capacity ≤ 0) || decide (i.power ≤ 0)
    || decide (i.efficiency ≤ 0) || decide (100 < i.efficiency)
    || decide (i.availability < 0) || decide (100 < i.availability)
    || decide (i.activation_rate < 0) || decide (100 < i.activation_rate)

/-- Modelled from the spec wording of the InvalidConfig condition (for comparison
with `rejects`): capacity <= 0, powerRating <= 0, efficiencyPct outside (0,100],
availabilityPct outside [0,100], or the period count N < 1. -/
def claimed_invalid (i : Inputs) : Bool :=
  decide (i.capacity ≤ 0) || decide (i.power ≤ 0)
    || decide (i.efficiency ≤ 0) || decide (100 < i.efficiency)
    || decide (i.availability < 0) || decide (100 < i.availability)
    || decide (i.operational_life < 1)

/-! ## Helper lemmas -/

lemma cumsum_aux_length (xs : List ℚ) : ∀ acc : ℚ, (cumsum_aux acc xs).length = xs.length := by
  induction xs with
  | nil => intro acc; rfl
  | cons x xs ih => intro acc; simp [cumsum_aux, ih]

lemma cumsum_length (xs : List ℚ) : (cumsum xs).length = xs.length :=
  cumsum_aux_length xs 0

lemma cumsum_aux_getD (xs : List ℚ) : ∀ (acc : ℚ) (j : ℕ), j < xs.length →
    (cumsum_aux acc xs).getD j 0 = acc + (xs.take (j + 1)).sum := by
  induction xs with
  | nil => intro acc j h; simp at h
  | cons x xs ih =>
    intro acc j h
    cases j with
    | zero => simp [cumsum_aux]
    | succ j =>
      have hj : j < xs.length := by simpa using h
      simp only [cumsum_aux, List.getD_cons_succ]
      rw [ih (acc + x) j hj, List.take_succ_cons, List.sum_cons]
      ring

lemma map_sub_getD (xs : List ℚ) (ti : ℚ) : ∀ j, j < xs.length →
    (xs.map (fun c => c - ti)).getD j 0 = xs.getD j 0 - ti := by
  induction xs with
  | nil => intro j h; simp at h
  | cons x xs ih =>
    intro j h
    cases j with
    | zero => rfl
    | succ j => exact ih j (by simpa using h)

lemma cumulative_cash_flow_getD (net : List ℚ) (ti : ℚ) (j : ℕ) (h : j < net.length) :
    (cumulative_cash_flow net ti).getD j 0 = (net.take (j + 1)).sum - ti := by
  unfold cumulative_cash_flow
  have hc : j < (cumsum net).length := by rw [cumsum_length]; exact h
  rw [map_sub_getD (cumsum net) ti j hc]
  unfold cumsum
  rw [cumsum_aux_getD net 0 j h]
  ring

lemma price_trajectory_length (initial growth : ℚ) (n : ℕ) :
    (price_trajectory initial growth n).length = n := by
  simp [price_trajectory]

lemma net_annual_revenues_length (ep ar eff : ℚ) (p : ScenarioParams) (n : ℕ) :
    (net_annual_revenues ep ar eff p n).length = n := by
  simp [net_annual_revenues, annual_revenues, annual_capacity_revenues,
    annual_activation_revenues, annual_charging_costs, electricity_prices,
    afrr_capacity_prices, afrr_activation_prices, price_trajectory]

lemma range_map_getD (f : ℕ → ℚ) (n j : ℕ) (h : j < n) :
    ((List.range n).map f).getD j 0 = f j := by
  rw [List.getD_eq_getElem _ _ (by simpa using h)]
  simp

/-! ## Theorems -/

/-- Claim C3: the effective discharge power equals
min(powerRating, capacity * (1 - reservedCapacityPct/100) * efficiencyPct/100)
* availabilityPct/100, exactly as computed at src/streamlit_app.py
lines 369 and 372. -/
theorem c3_effective_power_formula (capacity power efficiency reserved availability : ℚ) :
    effective_power capacity power efficiency reserved availability =
      min power (capacity * (1 - reserved / 100) * (efficiency / 100))
        * (availability / 100) := rfl

/-- Claim C8: for every valid BatteryConfig the effective power lies between 0
and the power rating. -/
theorem c8_effective_power_bounds (capacity power efficiency reserved availability : ℚ)
    (hc : 0 < capacity) (hp : 0 < power)
    (he : 0 < efficiency) (he2 : efficiency ≤ 100)
    (hr : 0 ≤ reserved) (hr2 : reserved ≤ 100)
    (ha : 0 ≤ availability) (ha2 : availability ≤ 100) :
    0 ≤ effective_power capacity power efficiency reserved availability ∧
      effective_power capacity power efficiency reserved availability ≤ power := by
  have hu : 0 ≤ usable_capacity capacity reserved := by
    have h1 : (0 : ℚ) ≤ 1 - reserved / 100 := by linarith
    exact mul_nonneg hc.le h1
  have he100 : (0 : ℚ) ≤ efficiency / 100 := by positivity
  have hx : 0 ≤ usable_capacity capacity reserved * (efficiency / 100) :=
    mul_nonneg hu he100
  have hm : 0 ≤ min power (usable_capacity capacity reserved * (efficiency / 100)) :=
    le_min hp.le hx
  have hmp : min power (usable_capacity capacity reserved * (efficiency / 100)) ≤ power :=
    min_le_left _ _
  have ha0 : (0 : ℚ) ≤ availability / 100 := by positivity
  have ha1 : availability / 100 ≤ 1 := by linarith
  constructor
  · exact mul_nonneg hm ha0
  · calc min power (usable_capacity capacity reserved * (efficiency / 100))
        * (availability / 100)
        ≤ min power (usable_capacity capacity reserved * (efficiency / 100)) * 1 :=
          mul_le_mul_of_nonneg_left ha1 hm
      _ = min power (usable_capacity capacity reserved * (efficiency / 100)) := mul_one _
      _ ≤ power := hmp

/-- Witness for C8 at the spec's concrete scenario: capacity 2, power 1,
efficiency 90, reserved 10, availability 95. -/
theorem c8_effective_power_bounds_witness :
    0 ≤ effective_power 2 1 90 10 95 ∧ effective_power 2 1 90 10 95 ≤ 1 :=
  c8_effective_power_bounds 2 1 90 10 95 (by norm_num) (by norm_num) (by norm_num)
    (by norm_num) (by norm_num) (by norm_num) (by norm_num) (by norm_num)

/-- Claim C10: with capacity, efficiency and availability nonnegative, raising
the reserved-capacity percentage never increases the effective power. -/
theorem c10_reserved_monotone (capacity power efficiency availability r1 r2 : ℚ)
    (hc : 0 ≤ capacity) (he : 0 ≤ efficiency) (ha : 0 ≤ availability)
    (hr : r1 ≤ r2) :
    effective_power capacity power efficiency r2 availability ≤
      effective_power capacity power efficiency r1 availability := by
  have hu : usable_capacity capacity r2 ≤ usable_capacity capacity r1 := by
    have h1 : 1 - r2 / 100 ≤ 1 - r1 / 100 := by linarith
    exact mul_le_mul_of_nonneg_left h1 hc
  have he100 : (0 : ℚ) ≤ efficiency / 100 := by positivity
  have hx : usable_capacity capacity r2 * (efficiency / 100) ≤
      usable_capacity capacity r1 * (efficiency / 100) :=
    mul_le_mul_of_nonneg_right hu he100
  have hm : min power (usable_capacity capacity r2 * (efficiency / 100)) ≤
      min power (usable_capacity capacity r1 * (efficiency / 100)) :=
    min_le_min le_rfl hx
  have ha0 : (0 : ℚ) ≤ availability / 100 := by positivity
  exact mul_le_mul_of_nonneg_right hm ha0

/-- Witness for C10: raising reserved capacity from 10% to 20% at the spec's
concrete scenario does not increase effective power. -/
theorem c10_reserved_monotone_witness :
    effective_power 2 1 90 20 95 ≤ effective_power 2 1 90 10 95 :=
  c10_reserved_monotone 2 1 90 95 10 20 (by norm_num) (by norm_num) (by norm_num)
    (by norm_num)

/-- Claim C2: for every scenario the cumulative cash flow obeys
cumulativeCashFlow[i] = cumulativeCashFlow[i-1] + netRevenue[i] with virtual
start -totalInvestment, and its last entry equals -totalInvestment plus the sum
of all net revenues. Indices here are 0-based: list position j holds the
spec's period i = j + 1. -/
theorem c2_cumulative_recurrence (ep ar eff : ℚ) (p : ScenarioParams) (ti : ℚ)
    (n j : ℕ) (hj : j < n) :
    ((cumulative_cash_flow (net_annual_revenues ep ar eff p n) ti).getD j 0 =
      (if j = 0 then -ti
        else (cumulative_cash_flow (net_annual_revenues ep ar eff p n) ti).getD (j - 1) 0)
        + (net_annual_revenues ep ar eff p n).getD j 0) ∧
    ((cumulative_cash_flow (net_annual_revenues ep ar eff p n) ti).getD (n - 1) 0 =
      -ti + (net_annual_revenues ep ar eff p n).sum) := by
  have hlen : (net_annual_revenues ep ar eff p n).length = n :=
    net_annual_revenues_length ep ar eff p n
  set net := net_annual_revenues ep ar eff p n with hnet
  have hj' : j < net.length := by rw [hlen]; exact hj
  constructor
  · rw [cumulative_cash_flow_getD net ti j hj']
    cases j with
    | zero =>
      rw [if_pos rfl]
      rw [List.sum_take_succ net 0 hj', List.getD_eq_getElem _ _ hj']
      simp only [List.take_zero, List.sum_nil]
      ring
    | succ j =>
      rw [if_neg (Nat.succ_ne_zero j)]
      have hjlt : j < net.length := Nat.lt_of_succ_lt hj'
      rw [cumulative_cash_flow_getD net ti (j + 1 - 1) (by simpa using hjlt)]
      rw [List.sum_take_succ net (j + 1) hj', List.getD_eq_getElem _ _ hj']
      simp only [Nat.add_sub_cancel]
      ring
  · have hn : 0 < n := Nat.lt_of_le_of_lt (Nat.zero_le j) hj
    have hn' : n - 1 < net.length := by rw [hlen]; omega
    rw [cumulative_cash_flow_getD net ti (n - 1) hn']
    have : n - 1 + 1 = n := Nat.succ_pred_eq_of_pos hn
    rw [this, ← hlen, List.take_length]
    ring

/-- Witness for C2 at a concrete scenario (effective power 1, activation rate 0,
efficiency 90, base-case prices, investment 10, two periods, j = 1). -/
theorem c2_cumulative_recurrence_witness :
    ((cumulative_cash_flow
        (net_annual_revenues 1 0 90 (ScenarioParams.mk 50 2 80 2 110 2) 2) 10).getD 1 0 =
      (if (1 : ℕ) = 0 then -(10 : ℚ)
        else (cumulative_cash_flow
          (net_annual_revenues 1 0 90 (ScenarioParams.mk 50 2 80 2 110 2) 2) 10).getD 0 0)
        + (net_annual_revenues 1 0 90 (ScenarioParams.mk 50 2 80 2 110 2) 2).getD 1 0) ∧
    ((cumulative_cash_flow
        (net_annual_revenues 1 0 90 (ScenarioParams.mk 50 2 80 2 110 2) 2) 10).getD 1 0 =
      -10 + (net_annual_revenues 1 0 90 (ScenarioParams.mk 50 2 80 2 110 2) 2).sum) :=
  c2_cumulative_recurrence 1 0 90 (ScenarioParams.mk 50 2 80 2 110 2) 10 2 1 (by norm_num)

lemma first_payback_eq_none (l : List (ℕ × ℚ)) (h : ∀ yc ∈ l, yc.2 < 0) :
    first_payback l = none := by
  induction l with
  | nil => rfl
  | cons yc rest ih =>
    have h0 := h yc (List.mem_cons_self yc rest)
    simp only [first_payback]
    rw [if_neg (not_le.mpr h0)]
    exact ih (fun q hq => h q (List.mem_cons_of_mem yc hq))

lemma first_payback_eq_some (l : List (ℕ × ℚ)) : ∀ j : ℕ, j < l.length →
    0 ≤ (l.getD j (0, 0)).2 → (∀ k, k < j → (l.getD k (0, 0)).2 < 0) →
    first_payback l = some (l.getD j (0, 0)).1 := by
  induction l with
  | nil => intro j h; simp at h
  | cons yc rest ih =>
    intro j hj hge hlt
    by_cases h0 : 0 ≤ yc.2
    · have hj0 : j = 0 := by
        by_contra hne
        have hneg : ((yc :: rest).getD 0 (0, 0)).2 < 0 := hlt 0 (Nat.pos_of_ne_zero hne)
        rw [List.getD_cons_zero] at hneg
        exact absurd h0 (not_le.mpr hneg)
      subst hj0
      simp only [first_payback, List.getD_cons_zero]
      rw [if_pos h0]
    · cases j with
      | zero =>
        rw [List.getD_cons_zero] at hge
        exact absurd hge h0
      | succ j =>
        simp only [first_payback, List.getD_cons_succ]
        rw [if_neg h0]
        exact ih j (by simpa using hj) (by simpa using hge)
          (fun k hk => by
            have := hlt (k + 1) (Nat.succ_lt_succ hk)
            rwa [List.getD_cons_succ] at this)

lemma years_list_length (n : ℕ) : (years_list n).length = n := by
  simp [years_list]

lemma zip_years_length (n : ℕ) (ccf : List ℚ) (h : ccf.length = n) :
    ((years_list n).zip ccf).length = n := by
  simp [List.length_zip, years_list_length, h]

lemma zip_years_getD (n j : ℕ) (ccf : List ℚ) (h : ccf.length = n) (hj : j < n) :
    ((years_list n).zip ccf).getD j (0, 0) = (j + 1, ccf.getD j 0) := by
  have hl : j < ((years_list n).zip ccf).length := by
    rw [zip_years_length n ccf h]; exact hj
  have hcl : j < ccf.length := by rw [h]; exact hj
  rw [List.getD_eq_getElem _ _ hl, List.getElem_zip]
  refine Prod.ext ?_ ?_
  · simp [years_list]
  · rw [List.getD_eq_getElem _ _ hcl]

/-- Claim C7: the payback result is determined by the first 0-based position j
with cumulative cash flow >= 0 (a value of exactly 0 counts), reported as the
period index j + 1; when every position within the operational life is
negative, the result is none. -/
theorem c7_payback_first_crossing (n : ℕ) (ccf : List ℚ) (h : ccf.length = n) :
    ((∀ j, j < n → ccf.getD j 0 < 0) → payback_period n ccf = none) ∧
    (∀ j, j < n → 0 ≤ ccf.getD j 0 → (∀ k, k < j → ccf.getD k 0 < 0) →
      payback_period n ccf = some (j + 1)) := by
  constructor
  · intro hall
    apply first_payback_eq_none
    intro yc hyc
    have h2 : yc.2 ∈ ccf := (List.of_mem_zip hyc).2
    obtain ⟨k, hk, hget⟩ := List.mem_iff_getElem.mp h2
    have hk' := hall k (by rw [← h]; exact hk)
    rw [List.getD_eq_getElem _ _ hk] at hk'
    rw [← hget]
    exact hk'
  · intro j hj hge hlt
    unfold payback_period
    have hzl : j < ((years_list n).zip ccf).length := by
      rw [zip_years_length n ccf h]; exact hj
    have hmain := first_payback_eq_some ((years_list n).zip ccf) j hzl
      (by rw [zip_years_getD n j ccf h hj]; exact hge)
      (fun k hk => by
        rw [zip_years_getD n k ccf h (hk.trans hj)]
        exact hlt k hk)
    rw [zip_years_getD n j ccf h hj] at hmain
    exact hmain

/-- Witness for C7: for the series [-5, 3] over 2 periods the first crossing is
at period 2. -/
theorem c7_payback_first_crossing_witness :
    payback_period 2 [(-5 : ℚ), 3] = some 2 :=
  (c7_payback_first_crossing 2 [(-5 : ℚ), 3] (by norm_num)).2 1 (by norm_num)
    (by norm_num) (by decide)

/-- Counterexample for C1: with net revenues [4, 4, 4] and investment 10 the
cumulative cash flows are [-6, -2, 2], the first crossing is at period 3, and
the code returns the integer 3, not the claimed interpolated value
(3 - 1) + (-cumulativeCashFlow[2]) / netRevenue[3] = 2.5. -/
theorem c1_payback_not_fractional_cex :
    payback_period 3 (cumulative_cash_flow [4, 4, 4] 10) = some 3 ∧
    ¬ ((3 : ℚ) = ((3 : ℚ) - 1) +
      (-((cumulative_cash_flow [4, 4, 4] 10).getD 1 0)) /
        (([(4 : ℚ), 4, 4]).getD 2 0)) := by
  have hccf : cumulative_cash_flow [4, 4, 4] 10 = [-6, -2, 2] := by
    norm_num [cumulative_cash_flow, cumsum, cumsum_aux]
  constructor
  · rw [hccf]
    norm_num [payback_period, years_list, first_payback, List.range_succ, List.zip,
      List.zipWith]
  · rw [hccf]
    norm_num [List.getD_cons_succ, List.getD_cons_zero]

/-- Claim C1 (amended): findPayback returns the integer period index of the
first break-even crossing — the first 0-based position j with cumulative cash
flow >= 0 yields the integer j + 1 — with no fractional interpolation. -/
theorem c1_payback_integer_index (n : ℕ) (ccf : List ℚ) (h : ccf.length = n)
    (j : ℕ) (hj : j < n) (hge : 0 ≤ ccf.getD j 0)
    (hlt : ∀ k, k < j → ccf.getD k 0 < 0) :
    payback_period n ccf = some (j + 1) := by
  unfold payback_period
  have hzl : j < ((years_list n).zip ccf).length := by
    rw [zip_years_length n ccf h]; exact hj
  have hmain := first_payback_eq_some ((years_list n).zip ccf) j hzl
    (by rw [zip_years_getD n j ccf h hj]; exact hge)
    (fun k hk => by
      rw [zip_years_getD n k ccf h (hk.trans hj)]
      exact hlt k hk)
  rw [zip_years_getD n j ccf h hj] at hmain
  exact hmain

/-- Witness for the amended C1: the counterexample's series has its first
crossing at 0-based position 2 and the code reports the integer period 3. -/
theorem c1_payback_integer_index_witness :
    payback_period 3 [(-6 : ℚ), -2, 2] = some 3 :=
  c1_payback_integer_index 3 [(-6 : ℚ), -2, 2] (by norm_num) 2 (by norm_num)
    (by norm_num) (by decide)

/-- Claim C4: the generated price series has one entry per period, entry i
(1-indexed) equals initial * (1 + growthPct/100) ^ (i - 1), and with zero
growth every entry equals the initial value. -/
theorem c4_price_trajectory_spec (initial growth : ℚ) (n : ℕ) :
    (price_trajectory initial growth n).length = n ∧
    (∀ i, 1 ≤ i → i ≤ n →
      (price_trajectory initial growth n).getD (i - 1) 0 =
        initial * (1 + growth / 100) ^ (i - 1)) ∧
    (growth = 0 → ∀ i, 1 ≤ i → i ≤ n →
      (price_trajectory initial growth n).getD (i - 1) 0 = initial) := by
  refine ⟨price_trajectory_length initial growth n, ?_, ?_⟩
  · intro i h1 hn
    have hlt : i - 1 < n := by omega
    exact range_map_getD (fun k => initial * (1 + growth / 100) ^ k) n (i - 1) hlt
  · intro hg i h1 hn
    have hlt : i - 1 < n := by omega
    unfold price_trajectory
    rw [range_map_getD (fun k => initial * (1 + growth / 100) ^ k) n (i - 1) hlt, hg]
    norm_num

/-- Witness for C4: trajectory entries at period 2 for growth 2% and growth 0. -/
theorem c4_price_trajectory_spec_witness :
    (price_trajectory 50 2 3).getD 1 0 = 50 * (1 + (2 : ℚ) / 100) ^ 1 ∧
    (price_trajectory 50 0 3).getD 1 0 = 50 :=
  ⟨(c4_price_trajectory_spec 50 2 3).2.1 2 (by norm_num) (by norm_num),
   (c4_price_trajectory_spec 50 0 3).2.2 rfl 2 (by norm_num) (by norm_num)⟩

lemma sum_getD_range (l : List ℚ) :
    ∑ t ∈ Finset.range l.length, l.getD t 0 = l.sum := by
  induction l with
  | nil => simp
  | cons x xs ih =>
    rw [List.length_cons, Finset.sum_range_succ']
    simp only [List.getD_cons_succ, List.getD_cons_zero, ih, List.sum_cons]
    ring

lemma np_npv_enumFrom (rate : ℚ) (vs : List ℚ) : ∀ m : ℕ,
    ((vs.enumFrom m).map (fun tv => tv.2 / (1 + rate) ^ tv.1)).sum =
      ∑ t ∈ Finset.range vs.length, vs.getD t 0 / (1 + rate) ^ (m + t) := by
  induction vs with
  | nil => intro m; simp
  | cons v vs ih =>
    intro m
    rw [List.enumFrom_cons]
    simp only [List.map_cons, List.sum_cons]
    rw [ih (m + 1), List.length_cons, Finset.sum_range_succ']
    have hcong : ∀ t ∈ Finset.range vs.length,
        (v :: vs).getD (t + 1) 0 / (1 + rate) ^ (m + (t + 1)) =
          vs.getD t 0 / (1 + rate) ^ (m + 1 + t) := by
      intro t _
      rw [List.getD_cons_succ, show m + (t + 1) = m + 1 + t by omega]
    rw [Finset.sum_congr rfl hcong]
    simp only [List.getD_cons_zero, Nat.add_zero]
    ring

/-- Claim C5: calculate_npv is the discounted sum of cashFlows[t] / (1+rate)^t
with t = 0 the initial outflow, and at rate 0 it is the plain sum of all cash
flows. -/
theorem c5_npv_discounted_sum (rate : ℚ) (cash_flows : List ℚ) :
    (calculate_npv rate cash_flows =
      ∑ t ∈ Finset.range cash_flows.length, cash_flows.getD t 0 / (1 + rate) ^ t) ∧
    calculate_npv 0 cash_flows = cash_flows.sum := by
  have hgen : ∀ r : ℚ, calculate_npv r cash_flows =
      ∑ t ∈ Finset.range cash_flows.length, cash_flows.getD t 0 / (1 + r) ^ t := by
    intro r
    have h := np_npv_enumFrom r cash_flows 0
    unfold calculate_npv np_npv
    rw [show cash_flows.enum = cash_flows.enumFrom 0 from rfl, h]
    exact Finset.sum_congr rfl (fun t _ => by rw [Nat.zero_add])
  constructor
  · exact hgen rate
  · rw [hgen 0, ← sum_getD_range cash_flows]
    exact Finset.sum_congr rfl (fun t _ => by norm_num)

/-- Claim C6 (code bug): when np.irr fails it yields the float nan, which is
not Python None, so the display logic of src/streamlit_app.py line 465 renders
a formatted nan percentage instead of the documented "N/A"; NPV is still
computed from the same cash flows, here evaluated at the all-negative failing
input [-700000, -10, -10]. -/
theorem c6_irr_nan_reported_formatted :
    irr_text (some np_irr_failure_value) = IrrText.pct PyFloat.nan ∧
    irr_text (some np_irr_failure_value) ≠ IrrText.NA ∧
    calculate_npv (5 / 100) (cash_flows_list 700000 [-10, -10]) =
      -700000 + (-10) / (1 + 5 / 100) + (-10) / (1 + 5 / 100) ^ 2 := by
  refine ⟨rfl, by decide, ?_⟩
  norm_num [calculate_npv, np_npv, cash_flows_list, List.enum, List.enumFrom]

/-- Counterexample for C9: the otherwise-valid input with period count 0 is not
rejected by the code although the claim requires InvalidConfig for N < 1, and
the input with activation rate 150 is rejected by the code although the claim's
condition list does not cover it. -/
theorem c9_invalid_config_cex :
    (rejects (Inputs.mk 1 1 90 10 95 15 0) = false ∧
      claimed_invalid (Inputs.mk 1 1 90 10 95 15 0) = true) ∧
    (rejects (Inputs.mk 1 1 90 10 95 150 15) = true ∧
      claimed_invalid (Inputs.mk 1 1 90 10 95 150 15) = false) := by
  refine ⟨⟨?_, ?_⟩, ?_, ?_⟩ <;> decide

/-- Claim C9 (amended): the boundary validation rejects exactly when
capacity <= 0, powerRating <= 0, efficiencyPct outside (0,100],
availabilityPct outside [0,100], or activationRatePct outside [0,100]; the
period count is never examined, so N < 1 is not rejected. -/
theorem c9_rejects_characterization (i : Inputs) :
    (rejects i = true ↔ (i.capacity ≤ 0 ∨ i.power ≤ 0 ∨ i.efficiency ≤ 0 ∨
      100 < i.efficiency ∨ i.availability < 0 ∨ 100 < i.availability ∨
      i.activation_rate < 0 ∨ 100 < i.activation_rate)) ∧
    (∀ n : ℤ, rejects (Inputs.mk i.capacity i.power i.efficiency
      i.reserved_capacity_pct i.availability i.activation_rate n) = rejects i) := by
  constructor
  · simp [rejects, or_assoc]
  · intro n; rfl

end EBSS
